import Mathlib

/-!
# Verification of the query-state synchronization engine of the hotel listing view

Shallow embedding of the filter/fetch logic in
`src/app/(routes)/hotels/_components/HotelList.tsx` and of the backend listing
endpoint `src/app/api/hotels/route.ts`.

Modelling conventions:
* JS finite numbers are modelled as `ℚ`; JS `NaN` is a separate constructor
  where the source can observe it (`JSNum.nan`).
* A query-parameter value (a string in the browser) is modelled by `PVal`:
  `numStr q` stands for any non-empty string `s` with `Number(s)` finite and
  equal to `q` (ECMAScript guarantees `Number(String(v)) = v` for finite `v`,
  so `String(v)` yields `numStr v`); `emptyStr` is `""` (`Number("") = 0`);
  `junk` is any other string (`Number` of it is not finite).
* `URLSearchParams` is a `List (String × PVal)`; `get` returns the first
  value, `set` replaces the first occurrence and deletes the rest (appending
  when absent), `delete` removes all occurrences — WHATWG semantics.
-/

namespace HotelSite

/-- A query-parameter string value, classified by how JS `Number` parses it. -/
inductive PVal where
  | numStr (q : ℚ)
  | emptyStr
  | junk
  deriving DecidableEq, Repr

/-- A JS number: finite (`fin`) or `NaN`. -/
inductive JSNum where
  | fin (q : ℚ)
  | nan
  deriving DecidableEq, Repr

/-- Query parameters: ordered list of key/value pairs (URLSearchParams). -/
def Params := List (String × PVal)

instance : DecidableEq Params := by
  unfold Params
  infer_instance

/-- Model of `URLSearchParams.get`: the value of the first pair with the given key,
`null` (`none`) when absent. -/
def pget (l : Params) (k : String) : Option PVal :=
  (l.find? (fun p => p.1 = k)).map (fun p => p.2)

/-- Model of `URLSearchParams.delete`: removes every pair with the given key. -/
def pdelete (l : Params) (k : String) : Params :=
  l.filter (fun p => p.1 ≠ k)

/-- Model of `URLSearchParams.set`: replaces the value of the first pair with the given
key and removes any later pairs with that key; appends when the key is absent. -/
def pset (l : Params) (k : String) (v : PVal) : Params :=
  match l with
  | [] => [(k, v)]
  | (k', v') :: t => if k' = k then (k, v) :: pdelete t k else (k', v') :: pset t k v

/-- The filter value model: `{ rating?: number, priceMin?: number,
priceMax?: number }` with possibly-`NaN` JS numbers. -/
structure FilterValues where
  rating : Option JSNum
  priceMin : Option JSNum
  priceMax : Option JSNum
  deriving DecidableEq, Repr

/-- Helper `readNum` from HotelList.tsx: `null` and `""` give `undefined`; otherwise
`Number(v)` when finite, else `undefined`. -/
def readNum (v : Option PVal) : Option ℚ :=
  match v with
  | none => none
  | some .emptyStr => none
  | some (.numStr q) => some q
  | some .junk => none

/-- Decoder `filtersFromParams` from HotelList.tsx: reads the three
recognized keys permissively. -/
def filtersFromParams (sp : Params) : FilterValues :=
  { rating := (readNum (pget sp "rating")).map JSNum.fin
    priceMin := (readNum (pget sp "priceMin")).map JSNum.fin
    priceMax := (readNum (pget sp "priceMax")).map JSNum.fin }

/-- One step of `buildQueryFromFilters`'s forEach: set the key to the
serialized number when the field is a non-NaN number, else delete the key. -/
def setOrDelete (ps : Params) (k : String) (v : Option JSNum) : Params :=
  match v with
  | some (.fin q) => pset ps k (.numStr q)
  | some .nan => pdelete ps k
  | none => pdelete ps k

/-- Encoder `buildQueryFromFilters` from HotelList.tsx: copies the current
params, then for each of `rating`, `priceMin`, `priceMax` sets the serialized
value when present and non-NaN, else deletes the key. -/
def buildQueryFromFilters (cur : Params) (filters : FilterValues) : Params :=
  setOrDelete (setOrDelete (setOrDelete cur "rating" filters.rating)
      "priceMin" filters.priceMin)
    "priceMax" filters.priceMax

/-! ## JSON values and the hotel response schema -/

/-- A parsed JSON value (`await res.json()` result). -/
inductive Json where
  | null
  | bool (b : Bool)
  | num (q : ℚ)
  | str (s : String)
  | arr (xs : List Json)
  | obj (kvs : List (String × Json))

/-- JS truthiness of a JSON value (`NaN` cannot occur in parsed JSON). -/
def truthy : Json → Bool
  | .null => false
  | .bool b => b
  | .num q => q != 0
  | .str s => s != ""
  | .arr _ => true
  | .obj _ => true

/-- Truthiness of a possibly-`undefined` value (`undefined` is falsy). -/
def truthyOpt : Option Json → Bool
  | none => false
  | some j => truthy j

/-- First value bound to a key in a JSON object's field list. -/
def jlookup (kvs : List (String × Json)) (k : String) : Option Json :=
  (kvs.find? (fun p => p.1 = k)).map (fun p => p.2)

/-- Optional-chained property access `x?.[k]`: defined only on objects,
`undefined` on every other value (including `undefined` itself). -/
def jfield (j : Option Json) (k : String) : Option Json :=
  match j with
  | some (.obj kvs) => jlookup kvs k
  | _ => none

/-- Optional-chained index access `x?.[0]`: head of an array; for a string,
its first character as a one-character string (JS string indexing);
`undefined` otherwise. -/
def jindex0 : Option Json → Option Json
  | some (.arr xs) => xs.head?
  | some (.str s) => (s.toList.head?).map (fun c => Json.str (String.singleton c))
  | _ => none

/-- Check `typeof data?.error === "string"` together with the extracted string. -/
def errorString (body : Option Json) : Option String :=
  match jfield body "error" with
  | some (.str s) => some s
  | _ => none

/-- A `ResultItem` (hotel) as described by `hotelSchema` in HotelList.tsx. -/
structure Hotel where
  id : Option String
  mongoId : Option Json
  name : String
  description : Option String
  location : Option String
  rating : Option ℚ
  pricePerNight : ℚ
  photos : Option (List String)

/-- Zod `z.string().optional()` on one object field: absent is fine, a present
value must be a string (`null` fails). -/
def parseOptStr (j : Option Json) : Option (Option String) :=
  match j with
  | none => some none
  | some (.str s) => some (some s)
  | some _ => none

/-- Zod `z.number().optional()` on one object field. -/
def parseOptNum (j : Option Json) : Option (Option ℚ) :=
  match j with
  | none => some none
  | some (.num q) => some (some q)
  | some _ => none

/-- Zod `z.array(z.string()).optional()` on one object field. -/
def parseOptStrArr (j : Option Json) : Option (Option (List String)) :=
  match j with
  | none => some none
  | some (.arr xs) =>
    (xs.mapM (fun x => match x with | Json.str s => some s | _ => none)).map some
  | some _ => none

/-- Parse of `hotelSchema` on one JSON value: must be a (non-array) object,
required `name : string` and `pricePerNight : number`, optional `id`,
`description`, `location` (strings), `rating` (number), `photos`
(string array); `_id` is `z.any().optional()` and never fails. -/
def parseHotel (j : Json) : Option Hotel :=
  match j with
  | .obj kvs => do
    let id ← parseOptStr (jlookup kvs "id")
    let name ← match jlookup kvs "name" with
      | some (.str s) => some s
      | _ => none
    let description ← parseOptStr (jlookup kvs "description")
    let location ← parseOptStr (jlookup kvs "location")
    let rating ← parseOptNum (jlookup kvs "rating")
    let pricePerNight ← match jlookup kvs "pricePerNight" with
      | some (.num q) => some q
      | _ => none
    let photos ← parseOptStrArr (jlookup kvs "photos")
    some { id := id, mongoId := jlookup kvs "_id", name := name,
           description := description, location := location, rating := rating,
           pricePerNight := pricePerNight, photos := photos }
  | _ => none

/-- Model of `hotelsResponseSchema.safeParse(data)`: the payload must be an array of
`hotelSchema`-shaped records; anything else (including a failed `res.json()`,
modelled as `none`) fails without crashing. -/
def parseHotels (body : Option Json) : Option (List Hotel) :=
  match body with
  | some (.arr xs) => xs.mapM parseHotel
  | _ => none

/-! ## View state and the fetch completion handler -/

/-- Per-field form errors set by `form.setError` (message payloads). -/
structure FormErrors where
  rating : Option Json
  priceMin : Option Json
  priceMax : Option Json

/-- Component state touched by `fetchHotels`: `hotels`, `loading`, the
network/shape channel `error`, the server-reported channel `apiError`, and
the form's field errors. -/
structure ViewState where
  hotels : List Hotel
  loading : Bool
  error : Option String
  apiError : Option String
  formErrors : FormErrors

/-- The synchronous prefix of `fetchHotels`: `setLoading(true)`,
`setError(null)`, `setApiError(null)`, `form.clearErrors()`. -/
def clearForIssue (v : ViewState) : ViewState :=
  { v with loading := true, error := none, apiError := none,
           formErrors := ⟨none, none, none⟩ }

/-- An HTTP response as the handler sees it: status, and the decoded JSON
body (`none` when `res.json()` rejected, i.e. `data = null`). -/
structure Response where
  status : Nat
  body : Option Json

/-- Model of `res.ok`: status in the 2xx range. -/
def Response.ok (r : Response) : Bool :=
  200 ≤ r.status && r.status < 300

/-- Whether `pat` is a leading run of `hay` (character-level). -/
def charsHasPre (pat hay : List Char) : Bool :=
  match pat, hay with
  | [], _ => true
  | _ :: _, [] => false
  | a :: as, b :: bs => a == b && charsHasPre as bs

/-- Substring containment on character lists (JS `String.prototype.includes`). -/
def charsContains (hay pat : List Char) : Bool :=
  match hay with
  | [] => charsHasPre pat []
  | _ :: rest => charsHasPre pat hay || charsContains rest pat

/-- Model of `s.toLowerCase().includes(pat)` for an already-lowercase pattern. -/
def lowerContains (s pat : String) : Bool :=
  charsContains (s.toList.map Char.toLower) pat.toList

/-- Lookup `fe?.[name]?.[0]` followed by the truthiness check `if (msg)`. -/
def fieldMsg (fe : Json) (k : String) : Option Json :=
  match jindex0 (jfield (some fe) k) with
  | some m => if truthy m then some m else none
  | none => none

/-- The 422 branch: for each of `rating`, `priceMin`, `priceMax`, set the
field's error to the first message in `details.fieldErrors` when truthy. -/
def set422Errors (old : FormErrors) (fe : Json) : FormErrors :=
  { rating := (fieldMsg fe "rating").orElse (fun _ => old.rating)
    priceMin := (fieldMsg fe "priceMin").orElse (fun _ => old.priceMin)
    priceMax := (fieldMsg fe "priceMax").orElse (fun _ => old.priceMax) }

/-- The completion handler of `fetchHotels` for a response that was not
aborted: error mapping on non-OK statuses, defensive shape validation on OK
ones, with the `finally` block's `setLoading(false)` folded in. -/
def applyResponse (v : ViewState) (r : Response) : ViewState :=
  if r.ok then
    match parseHotels r.body with
    | some hs => { v with hotels := hs, loading := false }
    | none =>
      -- `throw new Error(...)` caught below: `setError(e.message)`, `setHotels([])`
      { v with error := some "Invalid response shape from /api/hotels",
               hotels := [], loading := false }
  else
    let v' :=
      if r.status == 422 && truthyOpt (jfield (jfield r.body "details") "fieldErrors") then
        match jfield (jfield r.body "details") "fieldErrors" with
        | some fe => { v with formErrors := set422Errors v.formErrors fe }
        | none => v
      else
        match errorString r.body with
        | some s =>
          if lowerContains s "pricemin cannot be greater" then
            { v with formErrors := { v.formErrors with priceMax := some (Json.str s) } }
          else
            { v with apiError := some s }
        | none =>
          { v with apiError := some ("Request failed (HTTP " ++ toString r.status ++ ")") }
    { v' with hotels := [], loading := false }

/-- The `catch` path for an aborted request: `if (e?.name === "AbortError")
return;` — but the `finally` block still runs `setLoading(false)`. -/
def applyAborted (v : ViewState) : ViewState :=
  { v with loading := false }

/-! ## Filter Value Model: `filterSchema` (zod) -/

/-- A raw form-field value before validation: `undefined`, the empty string,
a value that `z.coerce.number()` turns into the finite number `q` (a number,
or a numeric string), or one it turns into `NaN`. -/
inductive RawField where
  | absent
  | empty
  | numv (q : ℚ)
  | junk
  deriving DecidableEq, Repr

/-- The raw input to `filterSchema`. -/
structure RawFilter where
  rating : RawField
  priceMin : RawField
  priceMax : RawField
  deriving DecidableEq, Repr

/-- The typed output of a successful `filterSchema` parse. -/
structure ParsedFilters where
  rating : Option ℚ
  priceMin : Option ℚ
  priceMax : Option ℚ
  deriving DecidableEq, Repr

/-- Result of `filterSchema.safeParse`: the parsed value, or the list of
issues as (path, message) pairs. -/
inductive VResult where
  | ok (v : ParsedFilters)
  | err (issues : List (String × String))
  deriving DecidableEq, Repr

/-- One field pipeline `z.preprocess(v => v === "" ? undefined : v,
z.coerce.number().min(lo).max(hi).optional())` — `lo`/`hi` are the optional
bounds (`rating` has both, the prices only a lower bound of 0). The messages
are zod's generated texts for the corresponding issues. -/
def parseRawField (f : RawField) (lo hi : Option ℚ) : Except String (Option ℚ) :=
  match f with
  | .absent => .ok none
  | .empty => .ok none
  | .junk => .error "Expected number, received nan"
  | .numv q =>
    match lo with
    | some l =>
      if q < l then .error ("Number must be greater than or equal to " ++ toString l)
      else
        match hi with
        | some h =>
          if h < q then .error ("Number must be less than or equal to " ++ toString h)
          else .ok (some q)
        | none => .ok (some q)
    | none =>
      match hi with
      | some h =>
        if h < q then .error ("Number must be less than or equal to " ++ toString h)
        else .ok (some q)
      | none => .ok (some q)

/-- JS truthiness of a `number | undefined` value (`undefined` and `0` are
falsy; `NaN` cannot occur after coercion succeeded). -/
def truthyQ : Option ℚ → Bool
  | none => false
  | some q => q != 0

/-- The cross-field refinement `!(v.priceMin && v.priceMax) || v.priceMin <=
v.priceMax`: when the first disjunct is false both fields are truthy numbers,
so the `getD 0` defaults are never the compared values. -/
def refinePasses (v : ParsedFilters) : Bool :=
  !(truthyQ v.priceMin && truthyQ v.priceMax) ||
    decide ((v.priceMin.getD 0) ≤ (v.priceMax.getD 0))

/-- Model of `filterSchema.safeParse`: per-field coercion/range checks collected with
their paths; when all fields pass, the `.refine` runs and a violation is
reported on path `priceMax` with the source's message. -/
def validateFilters (f : RawFilter) : VResult :=
  let fr := parseRawField f.rating (some 0) (some 5)
  let fmin := parseRawField f.priceMin (some 0) none
  let fmax := parseRawField f.priceMax (some 0) none
  match fr, fmin, fmax with
  | .ok r, .ok mn, .ok mx =>
    let v : ParsedFilters := ⟨r, mn, mx⟩
    if refinePasses v then .ok v
    else .err [("priceMax", "priceMin cannot be greater than priceMax.")]
  | _, _, _ =>
    .err ((match fr with | .error m => [("rating", m)] | .ok _ => []) ++
          (match fmin with | .error m => [("priceMin", m)] | .ok _ => []) ++
          (match fmax with | .error m => [("priceMax", m)] | .ok _ => []))

/-! ## Backend listing endpoint: `GET /api/hotels` (route.ts) -/

/-- Model of `Number(str)` for a query-parameter value: `Number("") = 0`, a numeric
string gives its value, anything else gives `NaN`. -/
def jsNumber : PVal → JSNum
  | .numStr q => .fin q
  | .emptyStr => .fin 0
  | .junk => .nan

/-- The three recognized query parameters as the endpoint reads them
(`searchParams.get`, `null` when absent). -/
structure QueryIn where
  rating : Option PVal
  priceMin : Option PVal
  priceMax : Option PVal
  deriving DecidableEq, Repr

/-- The endpoint's result: `NextResponse.json({ error }, { status })` or the
plain hotel array. -/
inductive ApiResult where
  | jsonErr (status : Nat) (error : String)
  | okHotels (hotels : List Hotel)

/-- Check `ratingStr !== null && (Number.isNaN(rating) || rating < 0 || rating > 5)`. -/
def ratingInvalid (rating : Option JSNum) : Bool :=
  match rating with
  | none => false
  | some .nan => true
  | some (.fin r) => decide (r < 0) || decide (5 < r)

/-- Check `str !== null && Number.isNaN(n)` for a price parameter. -/
def priceNaN (p : Option JSNum) : Bool :=
  match p with
  | some .nan => true
  | _ => false

/-- Check `priceMin !== undefined && priceMax !== undefined && priceMin > priceMax`
(JS comparison: false whenever either side is `NaN`). -/
def minGtMax (priceMin priceMax : Option JSNum) : Bool :=
  match priceMin, priceMax with
  | some (.fin a), some (.fin b) => decide (b < a)
  | _, _ => false

/-- The finite value of a parsed parameter, `undefined` when absent (by the
time the where-clause is built, `NaN` values have been rejected). -/
def finOf : Option JSNum → Option ℚ
  | some (.fin q) => some q
  | _ => none

/-- The Prisma where-clause built by the endpoint, as a predicate: an `AND`
of a `pricePerNight: { gte?, lte? }` filter (when either bound is given) and
a `rating: { gte }` filter (Prisma `gte` on a missing value does not match). -/
def matchesWhere (rating priceMin priceMax : Option ℚ) (h : Hotel) : Bool :=
  (match priceMin with
   | some p => decide (p ≤ h.pricePerNight)
   | none => true) &&
  (match priceMax with
   | some p => decide (h.pricePerNight ≤ p)
   | none => true) &&
  (match rating with
   | some r =>
     match h.rating with
     | some hr => decide (r ≤ hr)
     | none => false
   | none => true)

/-- Handler `GET` of `src/app/api/hotels/route.ts` over an in-memory database `db`:
parse the three parameters with `Number`, validate in source order
(rating range, `priceMin` NaN, `priceMax` NaN, `priceMin > priceMax`) —
each failure responds `400` with an `{ error }` body — then return the
hotels matching the where-clause. -/
def getHotels (db : List Hotel) (q : QueryIn) : ApiResult :=
  let rating := q.rating.map jsNumber
  let priceMin := q.priceMin.map jsNumber
  let priceMax := q.priceMax.map jsNumber
  if ratingInvalid rating then
    .jsonErr 400 "Rating must be a number between 0 and 5."
  else if priceNaN priceMin then
    .jsonErr 400 "priceMin must be a valid number."
  else if priceNaN priceMax then
    .jsonErr 400 "priceMax must be a valid number."
  else if minGtMax priceMin priceMax then
    .jsonErr 400 "priceMin cannot be greater than priceMax."
  else
    .okHotels (db.filter (matchesWhere (finOf rating) (finOf priceMin) (finOf priceMax)))

/-! ## Request Coordinator: cooperative trace model

One view instance, one shared `abortRef`. `fetchHotels` runs synchronously up
to the `fetch` call (the `issue` event); a pending request either completes —
its continuation runs atomically on the event loop (`complete` for a parsed
response, `completeErr` when the fetch itself rejects with a non-abort error)
— or is aborted by a later `issue`. An aborted request has two ways to
resume, depending on where the abort landed:
* while `await fetch` was suspended the promise rejects with `AbortError`,
  so only the `catch`-return/`finally` continuation runs (`resumeAborted`);
* while `await res.json()` was reading the body, the rejection is swallowed
  by the inner `try { data = await res.json() } catch { data = null }`, and
  the superseded invocation runs the FULL completion handler with
  `data = null` and the already-received status (`abortedBodyRead`). -/

/-- Whole-component state: the view state plus the coordinator's bookkeeping.
`pending` are in-flight non-aborted tokens, `abortedPending` are aborted
tokens whose `AbortError` continuation has not run yet. -/
structure CompState where
  view : ViewState
  abortRef : Option Nat
  nextToken : Nat
  pending : List Nat
  abortedPending : List Nat

/-- Scheduler events for one view instance. `abortedBodyRead t status` is the
continuation of a superseded request whose abort landed during the body read:
the inner json() catch swallowed the `AbortError`, so the handler runs with a
null body and the response's status. -/
inductive Event where
  | issue
  | complete (t : Nat) (r : Response)
  | completeErr (t : Nat) (msg : String)
  | resumeAborted (t : Nat)
  | abortedBodyRead (t : Nat) (status : Nat)

/-- The `catch` path for a non-abort failure (network error): `setError(e.message
|| "Failed to fetch hotels.")`, `setHotels([])`, and the `finally`'s
`setLoading(false)`. -/
def applyNetworkFailure (v : ViewState) (msg : String) : ViewState :=
  { v with error := some (if msg = "" then "Failed to fetch hotels." else msg),
           hotels := [], loading := false }

/-- One scheduler step; `none` when the event is not enabled. `issue` runs the
synchronous prefix of `fetchHotels`: clear errors, abort the request held in
`abortRef` (if still pending), install a fresh token. A completion event is
enabled only while its token is pending (an aborted fetch rejects with
`AbortError` instead). -/
def step (s : CompState) : Event → Option CompState
  | .issue =>
    some { view := clearForIssue s.view
           abortRef := some s.nextToken
           nextToken := s.nextToken + 1
           pending := s.nextToken ::
             s.pending.filter (fun u => !(decide (s.abortRef = some u)))
           abortedPending :=
             s.pending.filter (fun u => decide (s.abortRef = some u)) ++
               s.abortedPending }
  | .complete t r =>
    if t ∈ s.pending then
      some { s with view := applyResponse s.view r
                    pending := s.pending.filter (fun u => u != t) }
    else none
  | .completeErr t msg =>
    if t ∈ s.pending then
      some { s with view := applyNetworkFailure s.view msg
                    pending := s.pending.filter (fun u => u != t) }
    else none
  | .resumeAborted t =>
    if t ∈ s.abortedPending then
      some { s with view := applyAborted s.view
                    abortedPending := s.abortedPending.filter (fun u => u != t) }
    else none
  | .abortedBodyRead t st =>
    if t ∈ s.abortedPending then
      some { s with view := applyResponse s.view ⟨st, none⟩
                    abortedPending := s.abortedPending.filter (fun u => u != t) }
    else none

/-- Run a list of events from a state; `none` when some event is not enabled. -/
def run (s : CompState) : List Event → Option CompState
  | [] => some s
  | e :: es =>
    match step s e with
    | some s' => run s' es
    | none => none

/-- The component's state on mount: `useState([])`, `useState(true)`,
`useState(null)` twice, clean form, no controller. -/
def initState : CompState :=
  { view := { hotels := [], loading := true, error := none, apiError := none,
              formErrors := ⟨none, none, none⟩ }
    abortRef := none
    nextToken := 0
    pending := []
    abortedPending := [] }

/-- The derived `showEmpty` memo: `!loading && !error && hotels.length === 0`
(note: it does not consult `apiError`). -/
def showEmpty (v : ViewState) : Bool :=
  !v.loading && v.error.isNone && v.hotels.length == 0

/-- The token a completion event would apply to view state, if any. -/
def Event.tokenApplied : Event → Option Nat
  | .complete t _ => some t
  | .completeErr t _ => some t
  | _ => none

/-- Coordinator invariant: every in-flight non-aborted token is the one held
in `abortRef` (there is at most one live request). -/
def Inv (s : CompState) : Prop :=
  ∀ t ∈ s.pending, s.abortRef = some t

/-! ## Coordinator lemmas -/

theorem inv_init : Inv initState := by
  intro t ht
  cases ht

theorem step_inv {s s' : CompState} {e : Event} (hs : Inv s)
    (h : step s e = some s') : Inv s' := by
  cases e with
  | issue =>
    simp only [step, Option.some.injEq] at h
    subst h
    intro t ht
    simp only [List.mem_cons, List.mem_filter] at ht
    rcases ht with rfl | ⟨hmem, hp⟩
    · rfl
    · have := hs t hmem
      simp [this] at hp
  | complete t r =>
    simp only [step] at h
    split at h
    · simp only [Option.some.injEq] at h
      subst h
      intro u hu
      simp only [List.mem_filter] at hu
      exact hs u hu.1
    · cases h
  | completeErr t msg =>
    simp only [step] at h
    split at h
    · simp only [Option.some.injEq] at h
      subst h
      intro u hu
      simp only [List.mem_filter] at hu
      exact hs u hu.1
    · cases h
  | resumeAborted t =>
    simp only [step] at h
    split at h
    · simp only [Option.some.injEq] at h
      subst h
      intro u hu
      exact hs u hu
    · cases h
  | abortedBodyRead t st =>
    simp only [step] at h
    split at h
    · simp only [Option.some.injEq] at h
      subst h
      intro u hu
      exact hs u hu
    · cases h

theorem run_cons {s s' : CompState} {e : Event} {es : List Event}
    (h : run s (e :: es) = some s') :
    ∃ s2, step s e = some s2 ∧ run s2 es = some s' := by
  simp only [run] at h
  split at h
  · next s2 hse => exact ⟨s2, hse, h⟩
  · cases h

theorem run_inv : ∀ {l : List Event} {s s' : CompState},
    Inv s → run s l = some s' → Inv s'
  | [], _, _, hs, h => by
    simp only [run, Option.some.injEq] at h
    exact h ▸ hs
  | _ :: es, _, _, hs, h => by
    obtain ⟨s2, hse, hrun⟩ := run_cons h
    exact run_inv (step_inv hs hse) hrun

theorem run_append (l₁ l₂ : List Event) : ∀ s : CompState,
    run s (l₁ ++ l₂) = (run s l₁).bind (fun s' => run s' l₂) := by
  induction l₁ with
  | nil => intro s; rfl
  | cons e es ih =>
    intro s
    simp only [List.cons_append, run]
    cases hse : step s e with
    | none => rfl
    | some s2 => exact ih s2

/-- Every normal (non-aborted) completion — success or failure — that is
applied to view state belongs to the request token currently held in
`abortRef`, i.e. the most recently issued, non-superseded request. -/
theorem completion_token_is_current (pre : List Event) (e : Event) (post : List Event)
    (t : Nat) (he : e.tokenApplied = some t)
    (h : (run initState (pre ++ e :: post)).isSome) :
    ∃ s', run initState pre = some s' ∧ s'.abortRef = some t := by
  rw [Option.isSome_iff_exists] at h
  obtain ⟨s, h⟩ := h
  rw [run_append] at h
  cases hpre : run initState pre with
  | none => rw [hpre] at h; cases h
  | some s1 =>
    refine ⟨s1, rfl, ?_⟩
    rw [hpre] at h
    have hinv : Inv s1 := run_inv inv_init hpre
    obtain ⟨s2, hse, _⟩ := run_cons h
    cases e with
    | issue => cases he
    | resumeAborted u => cases he
    | abortedBodyRead u st => cases he
    | complete u r =>
      simp only [Event.tokenApplied, Option.some.injEq] at he
      subst he
      simp only [step] at hse
      split at hse
      · next hmem => exact hinv _ hmem
      · cases hse
    | completeErr u msg =>
      simp only [Event.tokenApplied, Option.some.injEq] at he
      subst he
      simp only [step] at hse
      split at hse
      · next hmem => exact hinv _ hmem
      · cases hse

/-- Frame property of the swallowed-AbortError path: running the completion
handler with a null body can never install a non-empty hotels list and never
touches the form field errors (a null body matches neither the 422
fieldErrors branch nor the cross-field string branch, and never parses as a
hotel array). -/
theorem applyResponse_null_body (v : ViewState) (st : Nat) :
    (applyResponse v ⟨st, none⟩).hotels = [] ∧
      (applyResponse v ⟨st, none⟩).formErrors = v.formErrors := by
  by_cases hok : Response.ok ⟨st, none⟩ = true
  · simp [applyResponse, hok, parseHotels]
  · simp only [Bool.not_eq_true] at hok
    simp [applyResponse, hok, errorString, jfield, truthyOpt]

/-- C1 counterexample: requests 0 and 1 are issued in that order; request 0's
response (status 404) had arrived and its abort — triggered by issuing
request 1 — lands during the body read, so its AbortError is swallowed by the
inner json() catch and the full handler runs with a null body while request 1
is still in flight; request 1 then resolves. Both requests resolved, yet
request 0's result was applied: in the final state the server-reported
operational channel still shows request 0's "Request failed (HTTP 404)". -/
theorem stale_error_applied_counterexample :
    ((run initState [Event.issue, Event.issue, Event.abortedBodyRead 0 404,
          Event.complete 1 ⟨200, some (Json.arr [])⟩]).map
        (fun s => s.view.apiError) = some (some "Request failed (HTTP 404)")) ∧
      ((run initState [Event.issue, Event.issue, Event.abortedBodyRead 0 404]).map
        (fun s => s.pending) = some [1]) :=
  ⟨rfl, rfl⟩

/-- C1 amended. At-most-one-winner holds for normal completions: every
response applied through a non-aborted completion belongs to the request
token currently held in `abortRef` (the most recently issued request), so a
superseded request's payload is never displayed. A request superseded during
its body read, however, still runs the completion handler — its AbortError
is swallowed by the inner json() catch, `data = null` — and may set an
operational error channel and clear the result list; but such a stale
completion can never install a non-empty hotels list and never touches the
form field errors. -/
theorem winning_results_are_current :
    (∀ (pre : List Event) (e : Event) (post : List Event) (t : Nat),
        e.tokenApplied = some t →
        (run initState (pre ++ e :: post)).isSome →
        ∃ s', run initState pre = some s' ∧ s'.abortRef = some t) ∧
      (∀ (s s' : CompState) (t st : Nat),
        step s (Event.abortedBodyRead t st) = some s' →
        s'.view.hotels = [] ∧ s'.view.formErrors = s.view.formErrors) := by
  constructor
  · exact completion_token_is_current
  · intro s s' t st hstep
    simp only [step] at hstep
    split at hstep
    · simp only [Option.some.injEq] at hstep
      subst hstep
      exact applyResponse_null_body s.view st
    · cases hstep

/-- Witness for C1 (amended): the normal-completion part applied to the trace
issue-then-complete for token 0; the stale part applied to the concrete state
after two issues, where the superseded token 0 resumes via the body-read path
with its 404 status. -/
theorem winning_results_are_current_witness :
    (∃ s', run initState [Event.issue] = some s' ∧ s'.abortRef = some 0) ∧
      ((⟨⟨[], false, none, some "Request failed (HTTP 404)", ⟨none, none, none⟩⟩,
          some 1, 2, [1], []⟩ : CompState).view.hotels = [] ∧
        (⟨⟨[], false, none, some "Request failed (HTTP 404)", ⟨none, none, none⟩⟩,
          some 1, 2, [1], []⟩ : CompState).view.formErrors =
          (⟨⟨[], true, none, none, ⟨none, none, none⟩⟩,
            some 1, 2, [1], [0]⟩ : CompState).view.formErrors) :=
  ⟨winning_results_are_current.1 [Event.issue]
      (Event.complete 0 ⟨200, some (Json.arr [])⟩) [] 0 rfl (by decide),
    winning_results_are_current.2
      ⟨⟨[], true, none, none, ⟨none, none, none⟩⟩, some 1, 2, [1], [0]⟩
      ⟨⟨[], false, none, some "Request failed (HTTP 404)", ⟨none, none, none⟩⟩,
        some 1, 2, [1], []⟩ 0 404 rfl⟩

/-! ## URL Codec laws -/

/-- A filter field is valid when absent, or a finite number within the given
bounds (`NaN` is not valid). -/
def fieldInRange (o : Option JSNum) (lo : ℚ) (hi : Option ℚ) : Bool :=
  match o with
  | some (.fin q) =>
    decide (lo ≤ q) && (match hi with | some h => decide (q ≤ h) | none => true)
  | some .nan => false
  | none => true

theorem fieldInRange_cases {o : Option JSNum} {lo : ℚ} {hi : Option ℚ}
    (h : fieldInRange o lo hi = true) :
    o = none ∨ ∃ q, o = some (JSNum.fin q) := by
  rcases o with _ | j
  · exact Or.inl rfl
  · cases j with
    | fin q => exact Or.inr ⟨q, rfl⟩
    | nan => simp [fieldInRange] at h

/-- C8. Round-trip law: for a FilterSet whose present fields are finite
numbers within their ranges, decoding the query built from empty parameters
yields the same FilterSet: `decode(encode(emptyParams, f)) == f`. -/
theorem decode_encode_roundtrip (f : FilterValues)
    (hr : fieldInRange f.rating 0 (some 5) = true)
    (hmin : fieldInRange f.priceMin 0 none = true)
    (hmax : fieldInRange f.priceMax 0 none = true) :
    filtersFromParams (buildQueryFromFilters [] f) = f := by
  obtain ⟨r, mn, mx⟩ := f
  dsimp only at hr hmin hmax
  rcases fieldInRange_cases hr with hr' | ⟨a, hr'⟩ <;>
    rcases fieldInRange_cases hmin with hm' | ⟨b, hm'⟩ <;>
      rcases fieldInRange_cases hmax with hx' | ⟨c, hx'⟩ <;>
        subst hr' <;> subst hm' <;> subst hx' <;> rfl

/-- Witness for C8 at the concrete FilterSet
`{rating: 3, priceMin: 10, priceMax: 20}`. -/
theorem decode_encode_roundtrip_witness :
    filtersFromParams (buildQueryFromFilters []
        ⟨some (JSNum.fin 3), some (JSNum.fin 10), some (JSNum.fin 20)⟩) =
      ⟨some (JSNum.fin 3), some (JSNum.fin 10), some (JSNum.fin 20)⟩ :=
  decode_encode_roundtrip _ (by decide) (by decide) (by decide)

theorem pdelete_filter_other (l : Params) (k k' : String) (h : k' ≠ k) :
    (pdelete l k).filter (fun p => decide (p.1 = k')) =
      l.filter (fun p => decide (p.1 = k')) := by
  have hkk : ¬ k = k' := fun hk => h hk.symm
  induction l with
  | nil => rfl
  | cons hd tl ih =>
    by_cases h1 : hd.1 = k
    · have h2 : ¬ hd.1 = k' := by rw [h1]; exact hkk
      simp [pdelete, List.filter_cons, h1, h2, hkk, h, -List.filter_filter] at ih ⊢
      exact ih
    · by_cases h2 : hd.1 = k'
      · simp [pdelete, List.filter_cons, h1, h2, h, -List.filter_filter] at ih ⊢
        exact ih
      · simp [pdelete, List.filter_cons, h1, h2, h, -List.filter_filter] at ih ⊢
        exact ih

theorem pset_filter_other (l : Params) (k k' : String) (v : PVal) (h : k' ≠ k) :
    (pset l k v).filter (fun p => decide (p.1 = k')) =
      l.filter (fun p => decide (p.1 = k')) := by
  have hkk : ¬ k = k' := fun hk => h hk.symm
  induction l with
  | nil => simp [pset, List.filter_cons, hkk]
  | cons hd tl ih =>
    obtain ⟨a, b⟩ := hd
    simp only [pset]
    by_cases h1 : a = k
    · subst h1
      simp [List.filter_cons, hkk, h, -List.filter_filter]
      exact pdelete_filter_other tl a k' h
    · by_cases h2 : a = k'
      · simp [List.filter_cons, h1, h2, h, ih, -List.filter_filter]
      · simp [List.filter_cons, h1, h2, h, ih, -List.filter_filter]

theorem setOrDelete_filter_other (l : Params) (k k' : String) (v : Option JSNum)
    (h : k' ≠ k) :
    (setOrDelete l k v).filter (fun p => decide (p.1 = k')) =
      l.filter (fun p => decide (p.1 = k')) := by
  cases v with
  | none => exact pdelete_filter_other l k k' h
  | some j =>
    cases j with
    | fin q => exact pset_filter_other l k k' _ h
    | nan => exact pdelete_filter_other l k k' h

/-- C9. Preservation law: `encode` only touches the keys `rating`,
`priceMin`, `priceMax`; every other key keeps exactly its pairs — presence,
values and order — in the output. -/
theorem encode_preserves_other_keys (cur : Params) (f : FilterValues) (k : String)
    (h : k ∉ (["rating", "priceMin", "priceMax"] : List String)) :
    (buildQueryFromFilters cur f).filter (fun p => decide (p.1 = k)) =
      cur.filter (fun p => decide (p.1 = k)) := by
  have h1 : ¬ k = "rating" := fun hk => h (by simp [hk])
  have h2 : ¬ k = "priceMin" := fun hk => h (by simp [hk])
  have h3 : ¬ k = "priceMax" := fun hk => h (by simp [hk])
  unfold buildQueryFromFilters
  rw [setOrDelete_filter_other _ _ _ _ h3, setOrDelete_filter_other _ _ _ _ h2,
    setOrDelete_filter_other _ _ _ _ h1]

/-- Witness for C9: an unrelated `page` parameter survives an encode that
sets `rating` and clears the price keys. -/
theorem encode_preserves_other_keys_witness :
    (buildQueryFromFilters [("page", PVal.numStr 2), ("rating", PVal.junk)]
          ⟨some (JSNum.fin 4), none, none⟩).filter (fun p => decide (p.1 = "page")) =
      ([("page", PVal.numStr 2), ("rating", PVal.junk)] : Params).filter
        (fun p => decide (p.1 = "page")) :=
  encode_preserves_other_keys _ _ "page" (by decide)

/-! ## Filter Value Model and backend contract theorems -/

/-- C3. The cross-field rule is implemented with JS truthiness
(`v.priceMin && v.priceMax`), so a defined price of `0` disables the check:
`{priceMin: 5, priceMax: 0}` has both fields defined and `priceMin >
priceMax`, yet `filterSchema` validation succeeds — while the backend rejects
the very same pair with its cross-field 400. The non-zero pair
`{priceMin: 300, priceMax: 100}` does fail on `priceMax` as the claim says. -/
theorem truthiness_skips_crossfield_check :
    validateFilters ⟨RawField.absent, RawField.numv 5, RawField.numv 0⟩ =
        VResult.ok ⟨none, some 5, some 0⟩ ∧
      getHotels [] ⟨none, some (PVal.numStr 5), some (PVal.numStr 0)⟩ =
        ApiResult.jsonErr 400 "priceMin cannot be greater than priceMax." ∧
      validateFilters ⟨RawField.absent, RawField.numv 300, RawField.numv 100⟩ =
        VResult.err [("priceMax", "priceMin cannot be greater than priceMax.")] :=
  ⟨by decide, rfl, by decide⟩

/-- C5 counterexample: the endpoint's rejections use HTTP 400 with a plain
`{ error }` body — not 422 with `details.fieldErrors` — and a negative
`priceMin` is not rejected at all (only NaN is checked for the prices). -/
theorem backend_contract_counterexample :
    getHotels [] ⟨some (PVal.numStr 6), none, none⟩ =
        ApiResult.jsonErr 400 "Rating must be a number between 0 and 5." ∧
      (400 : Nat) ≠ 422 ∧
      getHotels [] ⟨none, some (PVal.numStr (-5)), none⟩ = ApiResult.okHotels [] :=
  ⟨rfl, by decide, rfl⟩

/-- C5 amended: every parameter set that violates one of the endpoint's
actual checks — rating supplied and NaN or outside `[0,5]`, a non-numeric
(NaN) `priceMin` or `priceMax`, or finite `priceMin > priceMax` — IS rejected
with status 400 and a body carrying only a string `error`; conversely every
rejection has status 400 (never 422, never a `details.fieldErrors` shape);
and when all four checks pass (negative prices included — they are not
validated) the endpoint returns the plain filtered hotel array. (The Prisma
500 failure path is environmental and outside this model.) -/
theorem backend_validation_contract (db : List Hotel) (q : QueryIn) :
    ((ratingInvalid (q.rating.map jsNumber) = true ∨
        priceNaN (q.priceMin.map jsNumber) = true ∨
        priceNaN (q.priceMax.map jsNumber) = true ∨
        minGtMax (q.priceMin.map jsNumber) (q.priceMax.map jsNumber) = true) →
      ∃ msg, getHotels db q = ApiResult.jsonErr 400 msg) ∧
      (∀ st msg, getHotels db q = ApiResult.jsonErr st msg → st = 400) ∧
      (ratingInvalid (q.rating.map jsNumber) = false →
        priceNaN (q.priceMin.map jsNumber) = false →
        priceNaN (q.priceMax.map jsNumber) = false →
        minGtMax (q.priceMin.map jsNumber) (q.priceMax.map jsNumber) = false →
        getHotels db q = ApiResult.okHotels (db.filter (matchesWhere
          (finOf (q.rating.map jsNumber)) (finOf (q.priceMin.map jsNumber))
          (finOf (q.priceMax.map jsNumber))))) := by
  refine ⟨?_, ?_, ?_⟩
  · intro hviol
    by_cases h1 : ratingInvalid (q.rating.map jsNumber) = true
    · refine ⟨"Rating must be a number between 0 and 5.", ?_⟩
      simp [getHotels, h1]
    · simp only [Bool.not_eq_true] at h1
      by_cases h2 : priceNaN (q.priceMin.map jsNumber) = true
      · refine ⟨"priceMin must be a valid number.", ?_⟩
        simp [getHotels, h1, h2]
      · simp only [Bool.not_eq_true] at h2
        by_cases h3 : priceNaN (q.priceMax.map jsNumber) = true
        · refine ⟨"priceMax must be a valid number.", ?_⟩
          simp [getHotels, h1, h2, h3]
        · simp only [Bool.not_eq_true] at h3
          by_cases h4 : minGtMax (q.priceMin.map jsNumber) (q.priceMax.map jsNumber) = true
          · refine ⟨"priceMin cannot be greater than priceMax.", ?_⟩
            simp [getHotels, h1, h2, h3, h4]
          · simp only [Bool.not_eq_true] at h4
            rcases hviol with h | h | h | h <;> simp_all
  · intro st msg heq
    simp only [getHotels] at heq
    split at heq
    · injection heq with h hm; exact h.symm
    · split at heq
      · injection heq with h hm; exact h.symm
      · split at heq
        · injection heq with h hm; exact h.symm
        · split at heq
          · injection heq with h hm; exact h.symm
          · exact ApiResult.noConfusion heq
  · intro h1 h2 h3 h4
    simp only [getHotels, h1, h2, h3, h4, Bool.false_eq_true, if_false]

/-- Witness for C5 (amended): a non-numeric `priceMax` (a NaN-parsing string)
is rejected with a 400 `{ error }` body, and an untouched valid query
returns the plain array. -/
theorem backend_validation_contract_witness :
    (∃ msg, getHotels [] ⟨none, none, some PVal.junk⟩ =
        ApiResult.jsonErr 400 msg) ∧
      getHotels [] ⟨none, none, none⟩ = ApiResult.okHotels ([].filter
        (matchesWhere none none none)) :=
  ⟨(backend_validation_contract [] ⟨none, none, some PVal.junk⟩).1
      (by decide),
    (backend_validation_contract [] ⟨none, none, none⟩).2.2 rfl rfl rfl rfl⟩

/-- C10. With valid parameters, supplying `rating` filters hotels whose
rating is at least the supplied value (a lower bound via Prisma `gte`, with
unrated hotels excluded — not an exact match), and `priceMin`/`priceMax`
bound `pricePerNight` inclusively on each end. -/
theorem rating_filters_as_lower_bound (db : List Hotel) (r p1 p2 : ℚ)
    (hr0 : 0 ≤ r) (hr5 : r ≤ 5) (hp : p1 ≤ p2) :
    getHotels db ⟨some (PVal.numStr r), some (PVal.numStr p1), some (PVal.numStr p2)⟩ =
      ApiResult.okHotels (db.filter (fun h =>
        decide (h.pricePerNight ≥ p1) && (decide (h.pricePerNight ≤ p2) &&
          (h.rating.map (fun hr => decide (hr ≥ r))).getD false))) := by
  have h1 : ratingInvalid (some (JSNum.fin r)) = false := by
    simp only [ratingInvalid, Bool.or_eq_false_iff, decide_eq_false_iff_not]
    exact ⟨not_lt.mpr hr0, not_lt.mpr hr5⟩
  have h4 : minGtMax (some (JSNum.fin p1)) (some (JSNum.fin p2)) = false := by
    simp only [minGtMax, decide_eq_false_iff_not]
    exact not_lt.mpr hp
  simp only [getHotels, Option.map_some', jsNumber, h1, h4, priceNaN, finOf,
    Bool.false_eq_true, if_false, ApiResult.okHotels.injEq]
  congr 1
  funext h
  simp only [matchesWhere]
  cases hr : h.rating with
  | none => simp [ge_iff_le]
  | some q => simp [ge_iff_le, Bool.and_assoc]

/-- Witness for C10: a hotel rated 5 is returned for `rating=3` — the filter
is a lower bound, not an exact match. -/
theorem rating_filters_as_lower_bound_witness :
    getHotels [⟨some "h1", none, "Grand", none, none, some 5, 100, none⟩]
        ⟨some (PVal.numStr 3), some (PVal.numStr 0), some (PVal.numStr 200)⟩ =
      ApiResult.okHotels
        ([⟨some "h1", none, "Grand", none, none, some 5, 100, none⟩].filter (fun h =>
          decide (h.pricePerNight ≥ 0) && (decide (h.pricePerNight ≤ 200) &&
            (h.rating.map (fun hr => decide (hr ≥ 3))).getD false))) :=
  rating_filters_as_lower_bound _ 3 0 200 (by norm_num) (by norm_num) (by norm_num)

/-! ## Error Reconciler and View State theorems -/

/-- C6. A winning non-OK response that is not the 422/fieldErrors case and
whose body carries a string `error` matching the cross-field price rule (the
lowercase substring check) gets that message attached as a FieldError on
`priceMax` specifically; the hotels list is cleared and neither operational
error channel is set. -/
theorem crossfield_message_to_priceMax (v : ViewState) (r : Response) (s : String)
    (hok : r.ok = false)
    (hnot422 : ¬ (r.status = 422 ∧
      truthyOpt (jfield (jfield r.body "details") "fieldErrors") = true))
    (herr : errorString r.body = some s)
    (hmatch : lowerContains s "pricemin cannot be greater" = true) :
    (applyResponse (clearForIssue v) r).formErrors.priceMax = some (Json.str s) ∧
      (applyResponse (clearForIssue v) r).hotels = [] ∧
      (applyResponse (clearForIssue v) r).apiError = none ∧
      (applyResponse (clearForIssue v) r).error = none ∧
      (applyResponse (clearForIssue v) r).formErrors.rating = none ∧
      (applyResponse (clearForIssue v) r).formErrors.priceMin = none := by
  have hcond : (r.status == 422 &&
      truthyOpt (jfield (jfield r.body "details") "fieldErrors")) = false := by
    by_cases h4 : r.status = 422
    · by_cases hT : truthyOpt (jfield (jfield r.body "details") "fieldErrors") = true
      · exact absurd ⟨h4, hT⟩ hnot422
      · simp only [Bool.not_eq_true] at hT
        simp [hT]
    · simp [h4]
  simp [applyResponse, hok, hcond, herr, hmatch, clearForIssue]

/-- Witness for C6: the backend's actual reply to `?priceMin=300&priceMax=100`
— status 400 with the cross-field message — lands on the `priceMax` field. -/
theorem crossfield_message_to_priceMax_witness :
    (applyResponse (clearForIssue initState.view)
        ⟨400, some (Json.obj [("error",
          Json.str "priceMin cannot be greater than priceMax.")])⟩).formErrors.priceMax =
        some (Json.str "priceMin cannot be greater than priceMax.") ∧
      (applyResponse (clearForIssue initState.view)
        ⟨400, some (Json.obj [("error",
          Json.str "priceMin cannot be greater than priceMax.")])⟩).hotels = [] ∧
      (applyResponse (clearForIssue initState.view)
        ⟨400, some (Json.obj [("error",
          Json.str "priceMin cannot be greater than priceMax.")])⟩).apiError = none ∧
      (applyResponse (clearForIssue initState.view)
        ⟨400, some (Json.obj [("error",
          Json.str "priceMin cannot be greater than priceMax.")])⟩).error = none ∧
      (applyResponse (clearForIssue initState.view)
        ⟨400, some (Json.obj [("error",
          Json.str "priceMin cannot be greater than priceMax.")])⟩).formErrors.rating = none ∧
      (applyResponse (clearForIssue initState.view)
        ⟨400, some (Json.obj [("error",
          Json.str "priceMin cannot be greater than priceMax.")])⟩).formErrors.priceMin = none :=
  crossfield_message_to_priceMax initState.view
    ⟨400, some (Json.obj [("error", Json.str "priceMin cannot be greater than priceMax.")])⟩
    "priceMin cannot be greater than priceMax." (by decide) (by decide) (by decide) (by decide)

/-- C7 counterexample: on a winning 200 response with a non-array body, the
operational error message the code sets is "Invalid response shape from
/api/hotels", not the fixed string "Invalid response shape" the claim names. -/
theorem invalid_shape_message_counterexample :
    (applyResponse (clearForIssue initState.view) ⟨200, some (Json.obj [])⟩).error ≠
        some "Invalid response shape" ∧
      (applyResponse (clearForIssue initState.view) ⟨200, some (Json.obj [])⟩).error =
        some "Invalid response shape from /api/hotels" :=
  ⟨by decide, rfl⟩

/-- C7 amended: for every winning 200 response whose body fails the
`hotelsResponseSchema` shape check (e.g. a non-array body), the validator
fails without crashing (`safeParse`), the OperationalError channel is set to
the fixed message "Invalid response shape from /api/hotels", the result list
is cleared to empty, and neither `apiError` nor any form field error is set. -/
theorem invalid_shape_sets_operational_error (v : ViewState) (r : Response)
    (h200 : r.status = 200)
    (hbad : parseHotels r.body = none) :
    (applyResponse (clearForIssue v) r).error =
        some "Invalid response shape from /api/hotels" ∧
      (applyResponse (clearForIssue v) r).hotels = [] ∧
      (applyResponse (clearForIssue v) r).apiError = none ∧
      (applyResponse (clearForIssue v) r).formErrors = ⟨none, none, none⟩ := by
  have hok : r.ok = true := by
    unfold Response.ok
    rw [h200]
    rfl
  simp [applyResponse, hok, hbad, clearForIssue]

/-- Witness for C7 (amended) at a concrete 200 response whose body is the
number 3 (not an array). -/
theorem invalid_shape_sets_operational_error_witness :
    (applyResponse (clearForIssue initState.view) ⟨200, some (Json.num 3)⟩).error =
        some "Invalid response shape from /api/hotels" ∧
      (applyResponse (clearForIssue initState.view) ⟨200, some (Json.num 3)⟩).hotels = [] ∧
      (applyResponse (clearForIssue initState.view) ⟨200, some (Json.num 3)⟩).apiError = none ∧
      (applyResponse (clearForIssue initState.view) ⟨200, some (Json.num 3)⟩).formErrors =
        ⟨none, none, none⟩ :=
  invalid_shape_sets_operational_error initState.view ⟨200, some (Json.num 3)⟩ rfl rfl

/-- A non-OK response with a generic string error, as used to refute the
empty-state exclusivity claim. -/
def boomResponse : Response := ⟨400, some (Json.obj [("error", Json.str "boom")])⟩

/-- C4 counterexample: a reachable render state (issue one request, server
replies 400 with a generic error) in which the derived `empty` state is true
while the server-reported operational error channel `apiError` is non-null —
`showEmpty` only consults the network/shape channel `error`. -/
theorem empty_state_with_apiError_counterexample :
    ((run initState [Event.issue, Event.complete 0 boomResponse]).map
        (fun s => showEmpty s.view)) = some true ∧
      ((run initState [Event.issue, Event.complete 0 boomResponse]).map
        (fun s => s.view.apiError)) = some (some "boom") :=
  ⟨rfl, rfl⟩

/-- C4 amended: in every reachable render state, `empty` is true iff loading
is false, the network/shape OperationalError channel (`error`) is null, and
the result count is zero; `empty` is thus never true with `loading` or a
non-null `error`, but it can coexist with the server-reported channel
`apiError`. -/
theorem showEmpty_characterization (l : List Event) (s : CompState)
    (_reach : run initState l = some s) :
    (showEmpty s.view = true ↔
      (s.view.loading = false ∧ s.view.error = none ∧ s.view.hotels = [])) := by
  simp [showEmpty, Option.isNone_iff_eq_none, List.length_eq_zero,
    Bool.and_eq_true, Bool.not_eq_true', and_assoc]

/-- Witness for C4 (amended) at the reachable initial state (empty trace). -/
theorem showEmpty_characterization_witness :
    (showEmpty initState.view = true ↔
      (initState.view.loading = false ∧ initState.view.error = none ∧
        initState.view.hotels = [])) :=
  showEmpty_characterization [] initState rfl

/-- C2. Evaluation of the discard path at a concrete two-request race: after
`issue; issue` the superseding request is in flight with `loading = true`;
when the superseded request's AbortError continuation runs, its `finally`
block still executes `setLoading(false)` — the loading flag is mutated while
the newer request is still pending (the hotels list, both error channels and
the form errors are indeed left unchanged). -/
theorem superseded_request_still_clears_loading :
    ((run initState [Event.issue, Event.issue]).map
        (fun s => s.view.loading) = some true) ∧
      ((run initState [Event.issue, Event.issue, Event.resumeAborted 0]).map
        (fun s => s.view.loading) = some false) ∧
      ((run initState [Event.issue, Event.issue, Event.resumeAborted 0]).map
        (fun s => s.pending) = some [1]) ∧
      ((run initState [Event.issue, Event.issue, Event.resumeAborted 0]).map
        (fun s => (s.view.hotels, s.view.error, s.view.apiError)) =
        some ([], none, none)) :=
  ⟨rfl, rfl, rfl, rfl⟩

end HotelSite
